import Mathlib

/-!
Verification development for the car-game repository.

The geometry kernel is embedded from `src/game/shapes/Shape.ts` (the
`ShapeImpl` hierarchy: oriented rectangles with SAT, closest-point
rectangle-circle tests, distance-based circle-circle tests).  JavaScript
numbers are modelled as real numbers; `Math.sqrt`, `Math.sin`, `Math.cos`
are the real functions.  Boolean-returning JS methods are modelled as
`Prop`-valued predicates.
-/

/-- A 2D point, `Position` in `src/game/types`. -/
structure Pos where
  x : ℝ
  y : ℝ

/-- `RectShapeImpl`: center `(x, y)`, extents, rotation in radians.
The corner cache is derived on demand by `corners` (the TS class recomputes
it on every mutation, so it always equals this function of the fields). -/
structure RectShapeImpl where
  x : ℝ
  y : ℝ
  width : ℝ
  height : ℝ
  rotation : ℝ

/-- `CircleShapeImpl`: center `(x, y)` and radius. -/
structure CircleShapeImpl where
  x : ℝ
  y : ℝ
  radius : ℝ

/-- `RectShapeImpl.calculateCorners`: the four local corners
`(±w/2, ±h/2)` rotated by `rotation` and translated to the center. -/
noncomputable def RectShapeImpl.corners (r : RectShapeImpl) : List Pos :=
  let halfWidth := r.width / 2
  let halfHeight := r.height / 2
  let c := Real.cos r.rotation
  let s := Real.sin r.rotation
  [(⟨-halfWidth, -halfHeight⟩ : Pos), ⟨halfWidth, -halfHeight⟩,
    ⟨halfWidth, halfHeight⟩, ⟨-halfWidth, halfHeight⟩].map
    (fun p => ⟨r.x + (p.x * c - p.y * s), r.y + (p.x * s + p.y * c)⟩)

/-- The edge list walked by the `for` loops in `collidesWithRect` /
`collidesWithCircle`: corner `i` to corner `(i+1) % 4`.  `corners` always
has exactly four elements, so the wildcard branch is dead. -/
noncomputable def RectShapeImpl.edges (r : RectShapeImpl) : List (Pos × Pos) :=
  match r.corners with
  | [a, b, c, d] => [(a, b), (b, c), (c, d), (d, a)]
  | _ => []

/-- The normalized perpendicular of an edge, as built inside `getAxes`. -/
noncomputable def axisOf (p1 p2 : Pos) : Pos :=
  let ex := p2.x - p1.x
  let ey := p2.y - p1.y
  let length := Real.sqrt (ex * ex + ey * ey)
  ⟨-ey / length, ex / length⟩

/-- The `isDuplicate` check of `getAxes`: some existing axis agrees with
the candidate, or with its negation, within `0.0001` componentwise. -/
def isDupAxis (axes : List Pos) (a : Pos) : Prop :=
  ∃ e ∈ axes, (|e.x - a.x| < 0.0001 ∧ |e.y - a.y| < 0.0001) ∨
    (|e.x + a.x| < 0.0001 ∧ |e.y + a.y| < 0.0001)

open Classical in
/-- One iteration of the `getAxes` loop: append the edge's normal unless
it duplicates an already collected axis. -/
noncomputable def dedupStep (axes : List Pos) (e : Pos × Pos) : List Pos :=
  let a := axisOf e.1 e.2
  if isDupAxis axes a then axes else axes ++ [a]

/-- `RectShapeImpl.getAxes`: fold `dedupStep` over the four edges. -/
noncomputable def RectShapeImpl.getAxes (r : RectShapeImpl) : List Pos :=
  r.edges.foldl dedupStep []

/-- Minimum of a list of reals.  The TS loops seed the accumulator with
`+Infinity` and fold `Math.min`; on a nonempty list that equals folding
from the first element (the lists folded here always have 4 elements). -/
def listMin : List ℝ → ℝ
  | [] => 0
  | p :: ps => ps.foldl min p

/-- Maximum of a list of reals (see `listMin` for the `-Infinity` seed). -/
def listMax : List ℝ → ℝ
  | [] => 0
  | p :: ps => ps.foldl max p

/-- `RectShapeImpl.project`: the `[min, max]` interval of the corners'
dot products with the axis. -/
noncomputable def RectShapeImpl.project (r : RectShapeImpl) (axis : Pos) : ℝ × ℝ :=
  let projs := r.corners.map (fun c => c.x * axis.x + c.y * axis.y)
  (listMin projs, listMax projs)

/-- `RectShapeImpl.overlap`: `!(p1.max < p2.min || p2.max < p1.min)`. -/
def overlapInterval (p1 p2 : ℝ × ℝ) : Prop :=
  ¬(p1.2 < p2.1 ∨ p2.2 < p1.1)

/-- `RectShapeImpl.collidesWithRect`: SAT over the concatenation of the
two rectangles' axes; collision iff every axis shows interval overlap. -/
noncomputable def RectShapeImpl.collidesWithRect (a b : RectShapeImpl) : Prop :=
  ∀ axis ∈ a.getAxes ++ b.getAxes, overlapInterval (a.project axis) (b.project axis)

open Classical in
/-- `RectShapeImpl.closestPointOnLine`: clamped parametric projection of
`point` on the segment `p1 p2`; a zero-length edge yields `p1`. -/
noncomputable def closestPointOnLine (p1 p2 point : Pos) : Pos :=
  let dx := p2.x - p1.x
  let dy := p2.y - p1.y
  let length2 := dx * dx + dy * dy
  if length2 = 0 then p1
  else
    let t := max 0 (min 1 (((point.x - p1.x) * dx + (point.y - p1.y) * dy) / length2))
    ⟨p1.x + t * dx, p1.y + t * dy⟩

/-- `RectShapeImpl.collidesWithCircle`: minimum over the four edges of the
squared distance from the circle center to the edge's closest point,
compared (non-strictly) with `radius²`. -/
noncomputable def RectShapeImpl.collidesWithCircle
    (r : RectShapeImpl) (c : CircleShapeImpl) : Prop :=
  let dists := r.edges.map (fun e =>
    let cl := closestPointOnLine e.1 e.2 ⟨c.x, c.y⟩
    (cl.x - c.x) ^ 2 + (cl.y - c.y) ^ 2)
  listMin dists ≤ c.radius * c.radius

/-- `CircleShapeImpl.collidesWithCircle`: strict comparison of the center
distance with the radius sum. -/
noncomputable def CircleShapeImpl.collidesWithCircle
    (a b : CircleShapeImpl) : Prop :=
  Real.sqrt ((a.x - b.x) * (a.x - b.x) + (a.y - b.y) * (a.y - b.y)) <
    a.radius + b.radius

/-- The two concrete shape kinds of `Shape.ts`. -/
inductive ShapeImpl where
  | rect (r : RectShapeImpl)
  | circle (c : CircleShapeImpl)

/-- `collidesWith` dispatch.  `CircleShapeImpl.collidesWithRect` delegates
to `rect.collidesWithCircle(this)` in the source, reflected here. -/
noncomputable def ShapeImpl.collidesWith : ShapeImpl → ShapeImpl → Prop
  | .rect a, .rect b => a.collidesWithRect b
  | .rect a, .circle b => a.collidesWithCircle b
  | .circle a, .rect b => b.collidesWithCircle a
  | .circle a, .circle b => a.collidesWithCircle b

/-- Modelled from the spec: the "simple axis-aligned bounding-box
interval-overlap test computed from the same centers, widths, and
heights" of claim C4 — the x-intervals `[cx - w/2, cx + w/2]` and the
y-intervals of the two rectangles both intersect. -/
def specAabbIntervalOverlap (a b : RectShapeImpl) : Prop :=
  (a.x - a.width / 2 ≤ b.x + b.width / 2 ∧ b.x - b.width / 2 ≤ a.x + a.width / 2) ∧
  (a.y - a.height / 2 ≤ b.y + b.height / 2 ∧ b.y - b.height / 2 ≤ a.y + a.height / 2)

/-!
Effects and the bicycle-model `Car` (the final variant of `src/game/Car.ts`,
with `update(controls, deltaTime)`, grip-limited `updatePosition`, and the
timed-effect system).  `performance.now()` is passed in as an explicit
`now` argument.  Wheel-trace, particle and canvas state is rendering-only
and is not part of the modelled state; the per-wheel force accumulators
updated by `updatePhysics` are dead state (their results are never read
back into the car's kinematics), so `updatePhysics` is the identity on the
modelled fields.
-/

/-- `MapEntityEffect` from `entities/MapEntity.ts`. -/
structure MapEntityEffect where
  type : String
  value : ℝ
  duration : ℝ
  startTime : Option ℝ

/-- JavaScript truthiness of the optional `startTime` field:
`if (!effect.startTime) return false` drops both an absent and a zero
start timestamp. -/
def startTruthy : Option ℝ → Prop
  | none => False
  | some t => t ≠ 0

/-- The numeric start timestamp (0 when absent; only read when truthy). -/
def startVal : Option ℝ → ℝ
  | none => 0
  | some t => t

open Classical in
/-- The predicate of the effect filter shared by `Car.update` and
`getEffectiveMaxSpeed`: a truthy start timestamp, and permanent
(`duration === 0`) or not yet expired. -/
noncomputable def effectKeep (now : ℝ) (e : MapEntityEffect) : Bool :=
  decide (startTruthy e.startTime ∧
    (e.duration = 0 ∨ now - startVal e.startTime < e.duration))

open Classical in
/-- The effect filter shared by `Car.update` and `getEffectiveMaxSpeed`:
keep an effect iff its start timestamp is truthy and it is permanent
(`duration === 0`) or not yet expired (`now - startTime < duration`). -/
noncomputable def filterActiveEffects (now : ℝ) (effects : List MapEntityEffect) :
    List MapEntityEffect :=
  effects.filter (effectKeep now)

/-- The guard of the multiplier accumulation inside `getEffectiveMaxSpeed`:
`effect.type === 'maxSpeed' && effect.startTime` and
`effect.duration > 0 && now - effect.startTime < effect.duration`. -/
def speedEffectActive (now : ℝ) (e : MapEntityEffect) : Prop :=
  e.type = "maxSpeed" ∧ startTruthy e.startTime ∧
    0 < e.duration ∧ now - startVal e.startTime < e.duration

open Classical in
/-- `speedEffectActive` as the boolean test performed by the loop. -/
noncomputable def speedFilter (now : ℝ) (e : MapEntityEffect) : Bool :=
  decide (speedEffectActive now e)

open Classical in
/-- One iteration of the multiplier accumulation:
`maxSpeedMultiplier = Math.max(maxSpeedMultiplier, effect.value)` for a
qualifying effect. -/
noncomputable def speedMaxStep (now m : ℝ) (e : MapEntityEffect) : ℝ :=
  if speedEffectActive now e then max m e.value else m

/-- `Car.getEffectiveMaxSpeed` (bicycle-model variant): refilter the
active effects (the method reassigns `this.activeEffects`, returned here
as the first component), then fold `Math.max` of the qualifying speed
multipliers starting from 1, and scale the base max speed. -/
noncomputable def getEffectiveMaxSpeed (maxSpeed : ℝ) (effects : List MapEntityEffect)
    (now : ℝ) : List MapEntityEffect × ℝ :=
  let filtered := filterActiveEffects now effects
  let m := filtered.foldl (speedMaxStep now) 1
  (filtered, maxSpeed * m)

open Classical in
/-- `Math.atan2(y, x)` with the standard JS quadrant conventions. -/
noncomputable def atan2 (y x : ℝ) : ℝ :=
  if 0 < x then Real.arctan (y / x)
  else if x < 0 then
    (if 0 ≤ y then Real.arctan (y / x) + Real.pi else Real.arctan (y / x) - Real.pi)
  else
    (if 0 < y then Real.pi / 2 else if y < 0 then -(Real.pi / 2) else 0)

/-- `Math.pow` as used by the velocity drag (base 0.99, real exponent). -/
noncomputable def jsPow (b e : ℝ) : ℝ :=
  Real.rpow b e

/-- `CarStats` (maxSpeed, acceleration, handling). -/
structure CarStats where
  maxSpeed : ℝ
  acceleration : ℝ
  handling : ℝ

/-- The four-boolean control state. -/
structure Controls where
  up : Bool
  down : Bool
  left : Bool
  right : Bool

/-- Class constants of `Car`. -/
def baseWidth : ℝ := 50

def baseHeight : ℝ := 90

def wheelbase : ℝ := 60

noncomputable def steeringSpeed : ℝ := Real.pi / 32

noncomputable def maxSteeringAngle : ℝ := Real.pi / 4

def airResistance : ℝ := 0.99

/-- The modelled mutable state of `Car` (kinematics, effects, crash flag,
score-callback log, collision shape; `width` is the constant `baseWidth`,
`height` is mutable through size effects). -/
structure Car where
  stats : CarStats
  worldX : ℝ
  worldY : ℝ
  rotation : ℝ
  velocity : ℝ
  lateralVelocity : ℝ
  steeringAngle : ℝ
  height : ℝ
  activeEffects : List MapEntityEffect
  crashed : Bool
  angularVelocity : ℝ
  rearAxleX : ℝ
  rearAxleY : ℝ
  scoreLog : List ℝ
  shape : RectShapeImpl

/-- `Car.crash()`. -/
def Car.crash (car : Car) : Car :=
  { car with crashed := true }

/-- `Car.isCrashed()`. -/
def Car.isCrashed (car : Car) : Bool :=
  car.crashed

open Classical in
/-- `Car.updateSteering`: move toward the pressed side clamped at
`±maxSteeringAngle`; with no input decay toward zero, snapping to zero
within one `steeringSpeed` step. -/
noncomputable def Car.updateSteering (c : Controls) (car : Car) : Car :=
  if c.left then
    { car with steeringAngle := max (-maxSteeringAngle) (car.steeringAngle - steeringSpeed) }
  else if c.right then
    { car with steeringAngle := min maxSteeringAngle (car.steeringAngle + steeringSpeed) }
  else if |car.steeringAngle| < steeringSpeed then
    { car with steeringAngle := 0 }
  else
    { car with steeringAngle :=
        car.steeringAngle - Real.sign car.steeringAngle * steeringSpeed }

/-- The method call `this.getEffectiveMaxSpeed()`: reassigns
`this.activeEffects` and yields the effective max speed. -/
noncomputable def Car.effectiveMaxSpeedCall (now : ℝ) (car : Car) : Car × ℝ :=
  let p := getEffectiveMaxSpeed car.stats.maxSpeed car.activeEffects now
  ({ car with activeEffects := p.1 }, p.2)

open Classical in
/-- `Car.updateVelocity(controls, deltaTime)`: acceleration with a
diminishing curve toward the effective max speed, reverse at a reduced
rate toward half of it, multiplicative air resistance, and a snap to zero
below 0.1.  Uses the raw (unclamped) `deltaTime`. -/
noncomputable def Car.updateVelocity (c : Controls) (deltaTime now : ℝ) (car : Car) : Car :=
  let em := Car.effectiveMaxSpeedCall now car
  let car1 := em.1
  let effectiveMaxSpeed := em.2
  let normalizedDelta := deltaTime / 16
  let baseAcceleration := car1.stats.acceleration
  let car2 :=
    if c.up then
      let nv := min (car1.velocity + baseAcceleration *
        (1 - car1.velocity / effectiveMaxSpeed * 0.8) * normalizedDelta) effectiveMaxSpeed
      { car1 with velocity := nv }
    else if c.down then
      let nv := max (car1.velocity - baseAcceleration * 0.7 * normalizedDelta)
        (-effectiveMaxSpeed * 0.5)
      { car1 with velocity := nv }
    else car1
  let v := car2.velocity * jsPow airResistance normalizedDelta
  if |v| < 0.1 then { car2 with velocity := 0 } else { car2 with velocity := v }

/-- `Car.updatePhysics(deltaTime)`: updates only the per-wheel force
accumulators of `CarWheel`, whose outputs are never read back
(`getFx`/`getFy` return 0 and `getTorque` is not called in this variant),
so it is the identity on the modelled car state. -/
def Car.updatePhysics (_deltaTime : ℝ) (car : Car) : Car :=
  car

open Classical in
/-- `Car.updatePosition(deltaTime)`: clamp the step to 32 ms, compute the
grip-limited effective steering tangent, integrate drift, position,
rotation, rear axle and the collision shape, and apply turning
deceleration.  (At `deltaTime = 0` JS sets `angularVelocity` to `0/0 =
NaN`; the model's real division yields 0.  The field is only fed to the
dead wheel accumulators.) -/
noncomputable def Car.updatePosition (deltaTime : ℝ) (car : Car) : Car :=
  let clampedDeltaTime := min deltaTime 32
  let dt := clampedDeltaTime * (1 / 50)
  let halfWheelbase := wheelbase / 2
  let rawTan := Real.tan car.steeringAngle
  let lateralAcceleration := |car.velocity * car.velocity * rawTan / wheelbase|
  let speedFactor := min (|car.velocity| / car.stats.maxSpeed) 1
  let effectiveG := 10 - (10 - 1) * speedFactor
  let gripLimit := car.stats.handling * effectiveG
  let scale :=
    if lateralAcceleration > gripLimit then gripLimit / max lateralAcceleration 0.1 else 1
  let effectiveTan0 := rawTan * scale
  let effectiveTan :=
    if |car.velocity| > 0.5 * car.stats.maxSpeed then
      effectiveTan0 * (1 - 0.5 *
        ((|car.velocity| - 0.5 * car.stats.maxSpeed) / (0.1 * car.stats.maxSpeed)))
    else effectiveTan0
  let driftAccel := car.velocity * car.velocity / wheelbase * (rawTan - effectiveTan)
  let maxDriftAccel := car.stats.maxSpeed * 3
  let clampedDriftAccel := max (-maxDriftAccel) (min maxDriftAccel driftAccel)
  let latV := (car.lateralVelocity + clampedDriftAccel * dt) * (1 - 3.0 * dt)
  let fwdX := Real.sin car.rotation
  let fwdY := -Real.cos car.rotation
  let latX := Real.cos car.rotation
  let latY := Real.sin car.rotation
  let maxDelta := car.stats.maxSpeed * dt * 2
  let deltaX := dt * (car.velocity * fwdX + latV * latX)
  let deltaY := dt * (car.velocity * fwdY + latV * latY)
  let newX := car.worldX + max (-maxDelta) (min maxDelta deltaX)
  let newY := car.worldY + max (-maxDelta) (min maxDelta deltaY)
  let steeringRotation := car.velocity / wheelbase * effectiveTan * dt
  let slipAngle := if car.velocity ≠ 0 then atan2 latV |car.velocity| else 0
  let rotationChange := steeringRotation - 1.0 * slipAngle * dt
  let newRot := car.rotation + rotationChange
  let turnDeceleration := |effectiveTan| * 2
  let newVel :=
    if 0 < car.velocity then max (car.velocity - turnDeceleration * dt) 0
    else if car.velocity < 0 then min (car.velocity + turnDeceleration * dt) 0
    else car.velocity
  { car with
    worldX := newX
    worldY := newY
    lateralVelocity := latV
    rotation := newRot
    angularVelocity := rotationChange / dt
    rearAxleX := newX - halfWheelbase * Real.sin newRot
    rearAxleY := newY + halfWheelbase * Real.cos newRot
    shape := ⟨newX, newY, baseWidth, car.height, newRot⟩
    velocity := newVel }

open Classical in
/-- `Car.applyEffect(effect)`: stamp the start time, push the effect, then
apply instant `score` (score callback, logged) and `size` (height change
plus an immediate `updatePosition(0)` shape recompute) effects. -/
noncomputable def Car.applyEffect (now : ℝ) (eff : MapEntityEffect) (car : Car) : Car :=
  let eff' := { eff with startTime := some now }
  let car1 := { car with activeEffects := car.activeEffects ++ [eff'] }
  if eff.type = "score" then
    { car1 with scoreLog := eff.value :: car1.scoreLog }
  else if eff.type = "size" then
    Car.updatePosition 0 { car1 with height := baseHeight + eff.value }
  else car1

/-- `Car.update(controls, deltaTime)`: no-op once crashed; otherwise
filter effects, then steering, velocity, physics and position updates, and
finally re-sync the shape position (`this.shape.setPosition`). -/
noncomputable def Car.update (c : Controls) (deltaTime now : ℝ) (car : Car) : Car :=
  if car.crashed then car
  else
    let car1 := { car with activeEffects := filterActiveEffects now car.activeEffects }
    let car2 := Car.updateSteering c car1
    let car3 := Car.updateVelocity c deltaTime now car2
    let car4 := Car.updatePhysics deltaTime car3
    let car5 := Car.updatePosition deltaTime car4
    { car5 with shape := { car5.shape with x := car5.worldX, y := car5.worldY } }

/-- A sequence of `update` calls with per-tick inputs
`(controls, deltaTime, now)`. -/
noncomputable def Car.runUpdates (l : List (Controls × ℝ × ℝ)) (car : Car) : Car :=
  l.foldl (fun s args => Car.update args.1 args.2.1 args.2.2 s) car

/-!
`CyclistEntity` (from `entities/CyclistEntity.ts`, over the abstract
`MapEntity` base class whose `handleCollision` forwards to `onHit` while
the entity is active and never deactivates a cyclist).
-/

/-- One blood-splatter particle. -/
structure BloodEffect where
  x : ℝ
  y : ℝ
  size : ℝ
  opacity : ℝ
  timestamp : ℝ

/-- The three `Math.random()` draws of one blood particle. -/
structure BloodDraw where
  angle : ℝ
  distance : ℝ
  size : ℝ

/-- The 8-particle burst pushed by `CyclistEntity.onHit`, with the
uniform draws supplied explicitly (each in `[0,1)`). -/
noncomputable def mkBloodBurst (draws : ℕ → BloodDraw) (now px py : ℝ) : List BloodEffect :=
  (List.range 8).map (fun i =>
    { x := px + Real.cos ((draws i).angle * (Real.pi * 2)) * ((draws i).distance * 40)
      y := py + Real.sin ((draws i).angle * (Real.pi * 2)) * ((draws i).distance * 40)
      size := 4 + (draws i).size * 6
      opacity := 1
      timestamp := now })

/-- The modelled state of a `CyclistEntity`. -/
structure CyclistEntity where
  shapeX : ℝ
  shapeY : ℝ
  minX : ℝ
  maxX : ℝ
  moveDirection : ℝ
  currentX : ℝ
  bloodEffects : List BloodEffect
  isHit : Bool
  isActive : Bool

/-- `CyclistEntity.onHit(car)`: guarded by the `isHit` flag; the first
call pushes the blood burst and applies the permanent score(100) and
size(20) effects to the car. -/
noncomputable def CyclistEntity.onHit (draws : ℕ → BloodDraw) (now : ℝ)
    (cy : CyclistEntity) (car : Car) : CyclistEntity × Car :=
  if cy.isHit then (cy, car)
  else
    let newBlood := cy.bloodEffects ++ mkBloodBurst draws now cy.shapeX cy.shapeY
    let cy1 := { cy with isHit := true, bloodEffects := newBlood }
    let car1 := Car.applyEffect now ⟨"score", 100, 0, none⟩ car
    let car2 := Car.applyEffect now ⟨"size", 20, 0, none⟩ car1
    (cy1, car2)

/-- `MapEntity.handleCollision(car)` specialised to a cyclist: forwards
to `onHit` while active; nothing here ever clears `isActive`. -/
noncomputable def CyclistEntity.handleCollision (draws : ℕ → BloodDraw) (now : ℝ)
    (cy : CyclistEntity) (car : Car) : CyclistEntity × Car :=
  if cy.isActive then CyclistEntity.onHit draws now cy car else (cy, car)

/-!
`MapEntityManager` (first variant of `entities/MapEntityManager.ts`: the
one with cyclists and the unconditional cull).  Entities are modelled by
their kind, shape position, activity flags and the cyclist oscillation
state; shape extents play no role in the spawn/cull logic the claims are
about.  `Math.random()` draws are supplied per spawned entity.
-/

/-- The four entity kinds generated by the manager. -/
inductive EntityKind where
  | box
  | wall
  | cyclist
  | powerUp
deriving DecidableEq

/-- The modelled state of one managed entity. -/
structure ManagedEntity where
  kind : EntityKind
  x : ℝ
  y : ℝ
  active : Bool
  deactivateOnHit : Bool
  moveDirection : ℝ
  minX : ℝ
  maxX : ℝ
  isHit : Bool

/-- The uniform draws consumed when generating one random entity. -/
structure GenDraws where
  d1 : ℝ
  d2 : ℝ
  dx : ℝ
  dGapW : ℝ
  dGapPos : ℝ
  dDir : ℝ

/-- `generatePowerUp`: one circle power-up at a random x on the road. -/
noncomputable def generatePowerUp (cfg_roadWidth cfg_obstacleWidth y : ℝ)
    (d : GenDraws) : List ManagedEntity :=
  let minX := -cfg_roadWidth / 2 + cfg_obstacleWidth
  let maxX := cfg_roadWidth / 2 - cfg_obstacleWidth
  [{ kind := EntityKind.powerUp, x := minX + d.dx * (maxX - minX), y := y,
     active := true, deactivateOnHit := true, moveDirection := 0,
     minX := 0, maxX := 0, isHit := false }]

open Classical in
/-- `generateCyclist`: one cyclist at a random x, oscillating between the
road edges with a random initial direction. -/
noncomputable def generateCyclist (cfg_roadWidth y : ℝ) (d : GenDraws) :
    List ManagedEntity :=
  let minX := -cfg_roadWidth / 2 + 30
  let maxX := cfg_roadWidth / 2 - 30
  [{ kind := EntityKind.cyclist, x := minX + d.dx * (maxX - minX), y := y,
     active := true, deactivateOnHit := false,
     moveDirection := if d.dDir > 0.5 then 1 else -1,
     minX := minX, maxX := maxX, isHit := false }]

/-- `generateWallObstacle`: two wall sections bracketing a random gap of
width 100–200. -/
noncomputable def generateWallObstacle (cfg_roadWidth y : ℝ) (d : GenDraws) :
    List ManagedEntity :=
  let gapWidth := 100 + d.dGapW * (200 - 100)
  let gapPosition := -cfg_roadWidth / 2 + d.dGapPos * (cfg_roadWidth - gapWidth)
  [{ kind := EntityKind.wall, x := -cfg_roadWidth / 2, y := y, active := true,
     deactivateOnHit := false, moveDirection := 0, minX := 0, maxX := 0, isHit := false },
   { kind := EntityKind.wall, x := gapPosition + gapWidth, y := y, active := true,
     deactivateOnHit := false, moveDirection := 0, minX := 0, maxX := 0, isHit := false }]

/-- `generateBoxObstacle`: one plain box obstacle at a random x. -/
noncomputable def generateBoxObstacle (cfg_roadWidth cfg_obstacleWidth y : ℝ)
    (d : GenDraws) : List ManagedEntity :=
  let minX := -cfg_roadWidth / 2 + cfg_obstacleWidth
  let maxX := cfg_roadWidth / 2 - cfg_obstacleWidth
  [{ kind := EntityKind.box, x := minX + d.dx * (maxX - minX), y := y,
     active := true, deactivateOnHit := false, moveDirection := 0,
     minX := 0, maxX := 0, isHit := false }]

/-- `RoadConfig` (the fields the manager reads). -/
structure RoadConfig where
  roadWidth : ℝ
  obstacleWidth : ℝ
  obstacleHeight : ℝ
  obstacleSpacing : ℝ
  initialObstacleY : ℝ
  wallTransitionScore : ℝ

open Classical in
/-- `MapEntityManager.generateRandomEntity(y)`: distance-progressive
weighted choice of power-up, cyclist, and wall-pair vs box obstacle. -/
noncomputable def generateRandomEntity (cfg : RoadConfig) (y : ℝ) (d : GenDraws) :
    List ManagedEntity :=
  let progress := |y|
  let powerUpChance := max 0.1 (min 0.3 (progress / 20000))
  let cyclistChance := max 0.15 (min 0.4 (progress / 15000))
  if d.d1 < powerUpChance then generatePowerUp cfg.roadWidth cfg.obstacleWidth y d
  else if d.d2 < cyclistChance then generateCyclist cfg.roadWidth y d
  else if progress > cfg.wallTransitionScore then generateWallObstacle cfg.roadWidth y d
  else generateBoxObstacle cfg.roadWidth cfg.obstacleWidth y d

open Classical in
/-- The cyclist `onUpdate` closure: advance x by `0.5 * direction *
deltaTime / 16`, bouncing at the road edges; other kinds have no
`onUpdate`. -/
noncomputable def entityUpdate (dt : ℝ) (e : ManagedEntity) : ManagedEntity :=
  match e.kind with
  | EntityKind.cyclist =>
    if e.isHit then e
    else
      let newX := e.x + 0.5 * e.moveDirection * dt / 16
      if newX < e.minX then { e with x := e.minX, moveDirection := -e.moveDirection }
      else if newX > e.maxX then { e with x := e.maxX, moveDirection := -e.moveDirection }
      else { e with x := newX }
  | _ => e

/-- `MapEntity.update(deltaTime)`: runs `onUpdate` only while active. -/
noncomputable def entityTick (dt : ℝ) (e : ManagedEntity) : ManagedEntity :=
  if e.active then entityUpdate dt e else e

/-- The manager's modelled state. -/
structure MapEntityManager where
  entities : List ManagedEntity
  nextEntityY : ℝ
  config : RoadConfig

open Classical in
/-- Iteration count of the `while (this.nextEntityY > visibleTop)` spawn
loop: for positive spacing the cursor drops below `visibleTop` after
`⌈(nextEntityY - visibleTop) / spacing⌉` iterations (for nonpositive
spacing the JS loop would never terminate; the model spawns nothing in
that degenerate configuration). -/
noncomputable def spawnIters (nextY top spacing : ℝ) : ℕ :=
  if 0 < spacing ∧ top < nextY then ⌈(nextY - top) / spacing⌉₊ else 0

/-- The spawn loop body run `n` times: generate at the cursor, then move
the cursor up by `obstacleSpacing`. -/
noncomputable def spawnLoop (cfg : RoadConfig) (draws : ℕ → GenDraws) :
    ℕ → ℝ → List ManagedEntity × ℝ
  | 0, y => ([], y)
  | Nat.succ n, y =>
    let es := generateRandomEntity cfg y (draws n)
    let rest := spawnLoop cfg draws n (y - cfg.obstacleSpacing)
    (es ++ rest.1, rest.2)

open Classical in
/-- `MapEntityManager.update(lastCarY, deltaTime)` (first variant): spawn
ahead down to `lastCarY - 2000`, run each entity's update, then cull
entities that are inactive or outside `(lastCarY - 2000, lastCarY + 1000)`. -/
noncomputable def MapEntityManager.update (lastCarY deltaTime : ℝ)
    (draws : ℕ → GenDraws) (m : MapEntityManager) : MapEntityManager :=
  let visibleTop := lastCarY - 2000
  let visibleBottom := lastCarY + 1000
  let sp := spawnLoop m.config draws
    (spawnIters m.nextEntityY visibleTop m.config.obstacleSpacing) m.nextEntityY
  let entities1 := (m.entities ++ sp.1).map (entityTick deltaTime)
  { m with
    nextEntityY := sp.2
    entities := entities1.filter (fun e =>
      e.active && decide (visibleTop < e.y ∧ e.y < visibleBottom)) }

/-- Concrete objects for the manager witness: a box entity well inside
the window of a manager whose spawn cursor is already past the lookahead. -/
noncomputable def boxEntityW : ManagedEntity :=
  ⟨EntityKind.box, 0, -100, true, false, 0, 0, 0, false⟩

noncomputable def managerW : MapEntityManager :=
  ⟨[boxEntityW], -3000, ⟨400, 30, 30, 350, -1500, 10000⟩⟩

/-- Concrete objects for the car-side witnesses: a fresh straight-line
car with the default stats, full-throttle controls, an unhit cyclist, and
fixed uniform draws. -/
noncomputable def straightCar : Car :=
  ⟨⟨10, 0.3, 0.8⟩, 0, 0, 0, 0, 0, 0, 90, [], false, 0, 0, 30, [], ⟨0, 0, 50, 90, 0⟩⟩

noncomputable def upControls : Controls :=
  ⟨true, false, false, false⟩

noncomputable def cyclistW : CyclistEntity :=
  ⟨0, -500, -170, 170, 1, 0, [], false, true⟩

noncomputable def bloodDrawsW : ℕ → BloodDraw :=
  fun _ => ⟨0.5, 0.5, 0.5⟩

theorem RectShapeImpl.exists_edges (r : RectShapeImpl) :
    ∃ a b c d : Pos, r.corners = [a, b, c, d] ∧
      r.edges = [(a, b), (b, c), (c, d), (d, a)] := by
  unfold RectShapeImpl.edges RectShapeImpl.corners
  simp only [List.map]
  exact ⟨_, _, _, _, rfl, rfl⟩

theorem closestPoint_distSq_gt (p1 p2 pt : Pos) (rr : ℝ)
    (h : ∀ t : ℝ, 0 ≤ t → t ≤ 1 →
      rr < (p1.x + t * (p2.x - p1.x) - pt.x) ^ 2 +
        (p1.y + t * (p2.y - p1.y) - pt.y) ^ 2) :
    rr < ((closestPointOnLine p1 p2 pt).x - pt.x) ^ 2 +
      ((closestPointOnLine p1 p2 pt).y - pt.y) ^ 2 := by
  simp only [closestPointOnLine]
  split_ifs with h0
  · have h' := h 0 le_rfl zero_le_one
    simpa using h'
  · have ht0 : (0 : ℝ) ≤ max 0 (min 1 (((pt.x - p1.x) * (p2.x - p1.x) +
        (pt.y - p1.y) * (p2.y - p1.y)) /
        ((p2.x - p1.x) * (p2.x - p1.x) + (p2.y - p1.y) * (p2.y - p1.y)))) :=
      le_max_left _ _
    have ht1 : max 0 (min 1 (((pt.x - p1.x) * (p2.x - p1.x) +
        (pt.y - p1.y) * (p2.y - p1.y)) /
        ((p2.x - p1.x) * (p2.x - p1.x) + (p2.y - p1.y) * (p2.y - p1.y)))) ≤ 1 :=
      max_le zero_le_one (min_le_left _ _)
    exact h _ ht0 ht1

theorem overlapInterval_symm (p q : ℝ × ℝ) :
    overlapInterval p q ↔ overlapInterval q p := by
  unfold overlapInterval
  tauto

/-- C2: for all shapes A and B, each either a rectangle or a circle,
`A.collidesWith(B)` agrees with `B.collidesWith(A)`. -/
theorem claim_C2_collidesWith_symm (s t : ShapeImpl) :
    s.collidesWith t ↔ t.collidesWith s := by
  cases s with
  | rect a =>
    cases t with
    | rect b =>
      show a.collidesWithRect b ↔ b.collidesWithRect a
      unfold RectShapeImpl.collidesWithRect
      constructor <;> intro h axis haxis
      · rw [overlapInterval_symm]
        exact h axis (by simpa [List.mem_append, or_comm] using haxis)
      · rw [overlapInterval_symm]
        exact h axis (by simpa [List.mem_append, or_comm] using haxis)
    | circle b => exact Iff.rfl
  | circle a =>
    cases t with
    | rect b => exact Iff.rfl
    | circle b =>
      show a.collidesWithCircle b ↔ b.collidesWithCircle a
      unfold CircleShapeImpl.collidesWithCircle
      rw [show (a.x - b.x) * (a.x - b.x) + (a.y - b.y) * (a.y - b.y) =
        (b.x - a.x) * (b.x - a.x) + (b.y - a.y) * (b.y - a.y) by ring,
        add_comm a.radius b.radius]

/-- C3: two circles collide iff the squared center distance is strictly
below the squared radius sum (for nonnegative radii this is exactly
"distance < r1 + r2"); at the boundary, squared distance equal to the
squared sum, they do not collide. -/
theorem claim_C3_circleCircle_strict (a b : CircleShapeImpl)
    (ha : 0 ≤ a.radius) (hb : 0 ≤ b.radius) :
    (a.collidesWithCircle b ↔
      (a.x - b.x) * (a.x - b.x) + (a.y - b.y) * (a.y - b.y) <
        (a.radius + b.radius) ^ 2) ∧
    ((a.x - b.x) * (a.x - b.x) + (a.y - b.y) * (a.y - b.y) =
        (a.radius + b.radius) ^ 2 → ¬ a.collidesWithCircle b) := by
  have hs : 0 ≤ a.radius + b.radius := add_nonneg ha hb
  have hd : 0 ≤ (a.x - b.x) * (a.x - b.x) + (a.y - b.y) * (a.y - b.y) := by
    nlinarith [sq_nonneg (a.x - b.x), sq_nonneg (a.y - b.y)]
  unfold CircleShapeImpl.collidesWithCircle
  constructor
  · rcases hs.eq_or_lt with hz | hpos
    · rw [← hz]
      constructor
      · intro h
        exact absurd h (not_lt.mpr (Real.sqrt_nonneg _))
      · intro h
        exact absurd h (by simpa using not_lt.mpr hd)
    · exact Real.sqrt_lt' hpos
  · intro heq h
    rw [heq, Real.sqrt_sq hs] at h
    exact lt_irrefl _ h

/-- Witness for C3 at concrete circles on the boundary: radii 3 and 2 at
center distance 5 (squared distance 25 = (3+2)^2). -/
theorem claim_C3_witness :
    (0 : ℝ) ≤ (3 : ℝ) ∧ (0 : ℝ) ≤ (2 : ℝ) ∧
    ((CircleShapeImpl.collidesWithCircle ⟨0, 0, 3⟩ ⟨5, 0, 2⟩ ↔
      ((0 : ℝ) - 5) * ((0 : ℝ) - 5) + ((0 : ℝ) - 0) * ((0 : ℝ) - 0) <
        ((3 : ℝ) + 2) ^ 2) ∧
    (((0 : ℝ) - 5) * ((0 : ℝ) - 5) + ((0 : ℝ) - 0) * ((0 : ℝ) - 0) =
        ((3 : ℝ) + 2) ^ 2 →
      ¬ CircleShapeImpl.collidesWithCircle ⟨0, 0, 3⟩ ⟨5, 0, 2⟩)) :=
  ⟨by norm_num, by norm_num,
    claim_C3_circleCircle_strict ⟨0, 0, 3⟩ ⟨5, 0, 2⟩ (by norm_num) (by norm_num)⟩

/-- C10: the rectangle-circle test only measures distance to the
rectangle's edges: whenever every point of each of the rectangle's four
edge segments is at squared distance greater than `radius²` from the
circle's center (in particular when the center is strictly inside the
rectangle, farther than the radius from each edge, so the circle is fully
contained), `collidesWithCircle` reports no collision. -/
theorem claim_C10_containment_no_collision (r : RectShapeImpl) (c : CircleShapeImpl)
    (h : ∀ e ∈ r.edges, ∀ t : ℝ, 0 ≤ t → t ≤ 1 →
      c.radius * c.radius <
        (e.1.x + t * (e.2.x - e.1.x) - c.x) ^ 2 +
        (e.1.y + t * (e.2.y - e.1.y) - c.y) ^ 2) :
    ¬ r.collidesWithCircle c := by
  obtain ⟨a, b, d, e, _, hedges⟩ := r.exists_edges
  unfold RectShapeImpl.collidesWithCircle
  rw [hedges]
  simp only [List.map, listMin]
  have h1 := closestPoint_distSq_gt a b ⟨c.x, c.y⟩ _ (h (a, b) (by rw [hedges]; simp))
  have h2 := closestPoint_distSq_gt b d ⟨c.x, c.y⟩ _ (h (b, d) (by rw [hedges]; simp))
  have h3 := closestPoint_distSq_gt d e ⟨c.x, c.y⟩ _ (h (d, e) (by rw [hedges]; simp))
  have h4 := closestPoint_distSq_gt e a ⟨c.x, c.y⟩ _ (h (e, a) (by rw [hedges]; simp))
  simp only [List.foldl]
  intro hle
  have hmin : c.radius * c.radius < min (min (min
      (((closestPointOnLine a b ⟨c.x, c.y⟩).x - c.x) ^ 2 +
        ((closestPointOnLine a b ⟨c.x, c.y⟩).y - c.y) ^ 2)
      (((closestPointOnLine b d ⟨c.x, c.y⟩).x - c.x) ^ 2 +
        ((closestPointOnLine b d ⟨c.x, c.y⟩).y - c.y) ^ 2))
      (((closestPointOnLine d e ⟨c.x, c.y⟩).x - c.x) ^ 2 +
        ((closestPointOnLine d e ⟨c.x, c.y⟩).y - c.y) ^ 2))
      (((closestPointOnLine e a ⟨c.x, c.y⟩).x - c.x) ^ 2 +
        ((closestPointOnLine e a ⟨c.x, c.y⟩).y - c.y) ^ 2) := by
    exact lt_min (lt_min (lt_min h1 h2) h3) h4
  exact absurd (lt_of_lt_of_le hmin hle) (lt_irrefl _)

/-- Witness for C10: a 10×10 axis-aligned rectangle at the origin fully
containing a unit circle at its center reports no collision. -/
theorem claim_C10_witness :
    (∀ e ∈ (⟨0, 0, 10, 10, 0⟩ : RectShapeImpl).edges, ∀ t : ℝ, 0 ≤ t → t ≤ 1 →
      (1 : ℝ) * 1 < (e.1.x + t * (e.2.x - e.1.x) - 0) ^ 2 +
        (e.1.y + t * (e.2.y - e.1.y) - 0) ^ 2) ∧
    ¬ RectShapeImpl.collidesWithCircle ⟨0, 0, 10, 10, 0⟩ ⟨0, 0, 1⟩ := by
  have hp : ∀ e ∈ (⟨0, 0, 10, 10, 0⟩ : RectShapeImpl).edges, ∀ t : ℝ, 0 ≤ t → t ≤ 1 →
      (1 : ℝ) * 1 < (e.1.x + t * (e.2.x - e.1.x) - 0) ^ 2 +
        (e.1.y + t * (e.2.y - e.1.y) - 0) ^ 2 := by
    intro e he t ht0 ht1
    simp only [RectShapeImpl.edges, RectShapeImpl.corners, List.map,
      Real.cos_zero, Real.sin_zero, List.mem_cons, List.not_mem_nil, or_false] at he
    rcases he with h | h | h | h <;> subst h <;> norm_num <;> nlinarith [sq_nonneg t, sq_nonneg (1 - t), sq_nonneg (10 * t - 5)]
  exact ⟨hp, claim_C10_containment_no_collision _ _ hp⟩

theorem corners_rotZero (r : RectShapeImpl) (h0 : r.rotation = 0) :
    r.corners = [⟨r.x - r.width / 2, r.y - r.height / 2⟩,
      ⟨r.x + r.width / 2, r.y - r.height / 2⟩,
      ⟨r.x + r.width / 2, r.y + r.height / 2⟩,
      ⟨r.x - r.width / 2, r.y + r.height / 2⟩] := by
  simp only [RectShapeImpl.corners, h0, Real.cos_zero, Real.sin_zero, List.map,
    List.cons.injEq, Pos.mk.injEq, and_true]
  refine ⟨⟨by ring, by ring⟩, ⟨by ring, by ring⟩, ⟨by ring, by ring⟩, by ring, by ring⟩

theorem edges_rotZero (r : RectShapeImpl) (h0 : r.rotation = 0) :
    r.edges = [(⟨r.x - r.width / 2, r.y - r.height / 2⟩, ⟨r.x + r.width / 2, r.y - r.height / 2⟩),
      (⟨r.x + r.width / 2, r.y - r.height / 2⟩, ⟨r.x + r.width / 2, r.y + r.height / 2⟩),
      (⟨r.x + r.width / 2, r.y + r.height / 2⟩, ⟨r.x - r.width / 2, r.y + r.height / 2⟩),
      (⟨r.x - r.width / 2, r.y + r.height / 2⟩, ⟨r.x - r.width / 2, r.y - r.height / 2⟩)] := by
  unfold RectShapeImpl.edges
  rw [corners_rotZero r h0]

theorem axisOf_east (p q : Pos) (hw : 0 < q.x - p.x) (hy : q.y - p.y = 0) :
    axisOf p q = ⟨0, 1⟩ := by
  simp only [axisOf, hy]
  have hl : Real.sqrt ((q.x - p.x) * (q.x - p.x) + 0 * 0) = q.x - p.x := by
    rw [mul_zero, add_zero, Real.sqrt_mul_self hw.le]
  rw [hl]
  simp [Pos.mk.injEq, div_self hw.ne']

theorem axisOf_south (p q : Pos) (hh : 0 < q.y - p.y) (hx : q.x - p.x = 0) :
    axisOf p q = ⟨-1, 0⟩ := by
  simp only [axisOf, hx]
  have hl : Real.sqrt (0 * 0 + (q.y - p.y) * (q.y - p.y)) = q.y - p.y := by
    rw [zero_mul, zero_add, Real.sqrt_mul_self hh.le]
  rw [hl]
  simp only [Pos.mk.injEq]
  constructor
  · rw [neg_div, div_self hh.ne']
  · exact zero_div _

theorem axisOf_west (p q : Pos) (hw : q.x - p.x < 0) (hy : q.y - p.y = 0) :
    axisOf p q = ⟨0, -1⟩ := by
  simp only [axisOf, hy]
  have hl : Real.sqrt ((q.x - p.x) * (q.x - p.x) + 0 * 0) = -(q.x - p.x) := by
    rw [mul_zero, add_zero, show (q.x - p.x) * (q.x - p.x) = (-(q.x - p.x)) * (-(q.x - p.x)) by ring,
      Real.sqrt_mul_self (by linarith)]
  rw [hl]
  have hne : -(q.x - p.x) ≠ 0 := by linarith
  simp only [Pos.mk.injEq]
  constructor
  · simp
  · rw [div_neg, div_self (by linarith : q.x - p.x ≠ 0)]

theorem axisOf_north (p q : Pos) (hh : q.y - p.y < 0) (hx : q.x - p.x = 0) :
    axisOf p q = ⟨1, 0⟩ := by
  simp only [axisOf, hx]
  have hl : Real.sqrt (0 * 0 + (q.y - p.y) * (q.y - p.y)) = -(q.y - p.y) := by
    rw [zero_mul, zero_add, show (q.y - p.y) * (q.y - p.y) = (-(q.y - p.y)) * (-(q.y - p.y)) by ring,
      Real.sqrt_mul_self (by linarith)]
  rw [hl]
  simp only [Pos.mk.injEq]
  constructor
  · rw [neg_div, div_neg, neg_neg, div_self (by linarith : q.y - p.y ≠ 0)]
  · simp

theorem getAxes_rotZero (r : RectShapeImpl) (h0 : r.rotation = 0)
    (hw : 0 < r.width) (hh : 0 < r.height) :
    r.getAxes = [⟨0, 1⟩, ⟨-1, 0⟩] := by
  have e1 : axisOf ⟨r.x - r.width / 2, r.y - r.height / 2⟩
      ⟨r.x + r.width / 2, r.y - r.height / 2⟩ = ⟨0, 1⟩ :=
    axisOf_east _ _ (by simp; linarith) (by simp)
  have e2 : axisOf ⟨r.x + r.width / 2, r.y - r.height / 2⟩
      ⟨r.x + r.width / 2, r.y + r.height / 2⟩ = ⟨-1, 0⟩ :=
    axisOf_south _ _ (by simp; linarith) (by simp)
  have e3 : axisOf ⟨r.x + r.width / 2, r.y + r.height / 2⟩
      ⟨r.x - r.width / 2, r.y + r.height / 2⟩ = ⟨0, -1⟩ :=
    axisOf_west _ _ (by simp; linarith) (by simp)
  have e4 : axisOf ⟨r.x - r.width / 2, r.y + r.height / 2⟩
      ⟨r.x - r.width / 2, r.y - r.height / 2⟩ = ⟨1, 0⟩ :=
    axisOf_north _ _ (by simp; linarith) (by simp)
  have s1 : dedupStep [] (⟨r.x - r.width / 2, r.y - r.height / 2⟩,
      ⟨r.x + r.width / 2, r.y - r.height / 2⟩) = [⟨0, 1⟩] := by
    simp only [dedupStep]
    rw [e1]
    split_ifs with hdup
    · exact absurd hdup (by simp [isDupAxis])
    · rfl
  have s2 : dedupStep [⟨0, 1⟩] (⟨r.x + r.width / 2, r.y - r.height / 2⟩,
      ⟨r.x + r.width / 2, r.y + r.height / 2⟩) = [⟨0, 1⟩, ⟨-1, 0⟩] := by
    simp only [dedupStep]
    rw [e2]
    split_ifs with hdup
    · exact absurd hdup (by
        simp only [isDupAxis, List.mem_singleton]
        push_neg
        intro e he
        subst he
        norm_num)
    · rfl
  have s3 : dedupStep [⟨0, 1⟩, ⟨-1, 0⟩] (⟨r.x + r.width / 2, r.y + r.height / 2⟩,
      ⟨r.x - r.width / 2, r.y + r.height / 2⟩) = [⟨0, 1⟩, ⟨-1, 0⟩] := by
    simp only [dedupStep]
    rw [e3]
    split_ifs with hdup
    · rfl
    · exact absurd ⟨⟨0, 1⟩, by simp, Or.inr (by norm_num)⟩ hdup
  have s4 : dedupStep [⟨0, 1⟩, ⟨-1, 0⟩] (⟨r.x - r.width / 2, r.y + r.height / 2⟩,
      ⟨r.x - r.width / 2, r.y - r.height / 2⟩) = [⟨0, 1⟩, ⟨-1, 0⟩] := by
    simp only [dedupStep]
    rw [e4]
    split_ifs with hdup
    · rfl
    · exact absurd ⟨⟨-1, 0⟩, by simp, Or.inr (by norm_num)⟩ hdup
  unfold RectShapeImpl.getAxes
  rw [edges_rotZero r h0, List.foldl_cons, s1, List.foldl_cons, s2,
    List.foldl_cons, s3, List.foldl_cons, s4, List.foldl_nil]

theorem project_vert (r : RectShapeImpl) (h0 : r.rotation = 0) (hh : 0 < r.height) :
    r.project ⟨0, 1⟩ = (r.y - r.height / 2, r.y + r.height / 2) := by
  unfold RectShapeImpl.project
  rw [corners_rotZero r h0]
  simp only [List.map, listMin, listMax, List.foldl, mul_zero, mul_one, zero_add]
  have hab : r.y - r.height / 2 ≤ r.y + r.height / 2 := by linarith
  rw [min_self, max_self, min_eq_left hab, min_eq_left hab,
    max_eq_right hab, max_self]

theorem project_horiz (r : RectShapeImpl) (h0 : r.rotation = 0) (hw : 0 < r.width) :
    r.project ⟨-1, 0⟩ = (-(r.x + r.width / 2), -(r.x - r.width / 2)) := by
  unfold RectShapeImpl.project
  rw [corners_rotZero r h0]
  simp only [List.map, listMin, listMax, List.foldl, mul_zero, add_zero, mul_neg, mul_one]
  have hba : -(r.x + r.width / 2) ≤ -(r.x - r.width / 2) := by linarith
  rw [min_eq_right hba, min_self, min_eq_left hba,
    max_eq_left hba, max_eq_left hba, max_self]

/-- C4: for two axis-aligned rectangles (rotation 0, positive extents) the
SAT test of `RectShapeImpl.collidesWithRect` agrees with the simple
axis-aligned bounding-box interval-overlap test on the same centers,
widths and heights. -/
theorem claim_C4_sat_agrees_with_aabb (a b : RectShapeImpl)
    (ha0 : a.rotation = 0) (hb0 : b.rotation = 0)
    (haw : 0 < a.width) (hah : 0 < a.height)
    (hbw : 0 < b.width) (hbh : 0 < b.height) :
    (a.collidesWithRect b ↔ specAabbIntervalOverlap a b) := by
  unfold RectShapeImpl.collidesWithRect
  rw [getAxes_rotZero a ha0 haw hah, getAxes_rotZero b hb0 hbw hbh]
  have pav := project_vert a ha0 hah
  have pbv := project_vert b hb0 hbh
  have pah := project_horiz a ha0 haw
  have pbh' := project_horiz b hb0 hbw
  constructor
  · intro h
    have h1 := h ⟨0, 1⟩ (by simp)
    have h2 := h ⟨-1, 0⟩ (by simp)
    rw [pav, pbv] at h1
    rw [pah, pbh'] at h2
    unfold overlapInterval at h1 h2
    push_neg at h1 h2
    dsimp only at h1 h2
    exact ⟨⟨by linarith [h2.2], by linarith [h2.1]⟩,
      ⟨by linarith [h1.1], by linarith [h1.2]⟩⟩
  · intro h axis haxis
    have hmem : axis = (⟨0, 1⟩ : Pos) ∨ axis = (⟨-1, 0⟩ : Pos) ∨
        axis = (⟨0, 1⟩ : Pos) ∨ axis = (⟨-1, 0⟩ : Pos) := by
      simpa using haxis
    rcases hmem with rfl | rfl | rfl | rfl
    · rw [pav, pbv]
      unfold overlapInterval
      dsimp only
      rintro (hbad | hbad)
      · linarith [h.2.2]
      · linarith [h.2.1]
    · rw [pah, pbh']
      unfold overlapInterval
      dsimp only
      rintro (hbad | hbad)
      · linarith [h.1.1]
      · linarith [h.1.2]
    · rw [pav, pbv]
      unfold overlapInterval
      dsimp only
      rintro (hbad | hbad)
      · linarith [h.2.2]
      · linarith [h.2.1]
    · rw [pah, pbh']
      unfold overlapInterval
      dsimp only
      rintro (hbad | hbad)
      · linarith [h.1.1]
      · linarith [h.1.2]

/-- Witness for C4: the equivalence instantiated at two concrete touching
axis-aligned rectangles. -/
theorem claim_C4_witness :
    ((⟨0, 0, 2, 2, 0⟩ : RectShapeImpl).rotation = 0 ∧
      (⟨3, 1, 4, 2, 0⟩ : RectShapeImpl).rotation = 0 ∧
      (0 : ℝ) < 2 ∧ (0 : ℝ) < 4) ∧
    (RectShapeImpl.collidesWithRect ⟨0, 0, 2, 2, 0⟩ ⟨3, 1, 4, 2, 0⟩ ↔
      specAabbIntervalOverlap ⟨0, 0, 2, 2, 0⟩ ⟨3, 1, 4, 2, 0⟩) :=
  ⟨⟨rfl, rfl, by norm_num, by norm_num⟩,
    claim_C4_sat_agrees_with_aabb ⟨0, 0, 2, 2, 0⟩ ⟨3, 1, 4, 2, 0⟩ rfl rfl
      (by norm_num) (by norm_num) (by norm_num) (by norm_num)⟩

theorem update_of_crashed (c : Controls) (dt now : ℝ) (car : Car)
    (h : car.crashed = true) : Car.update c dt now car = car := by
  unfold Car.update
  rw [if_pos h]

theorem runUpdates_of_crashed (l : List (Controls × ℝ × ℝ)) (car : Car)
    (h : car.crashed = true) : Car.runUpdates l car = car := by
  induction l with
  | nil => rfl
  | cons a t ih =>
    unfold Car.runUpdates at ih ⊢
    rw [List.foldl_cons, update_of_crashed a.1 a.2.1 a.2.2 car h]
    exact ih

/-- C1: once `crash()` has been invoked, any sequence of subsequent
`update(controls, deltaTime)` calls leaves the car's world position,
rotation and velocity unchanged, for every control input and time delta. -/
theorem claim_C1_crash_terminal (car : Car) (l : List (Controls × ℝ × ℝ)) :
    (Car.runUpdates l (Car.crash car)).worldX = car.worldX ∧
    (Car.runUpdates l (Car.crash car)).worldY = car.worldY ∧
    (Car.runUpdates l (Car.crash car)).rotation = car.rotation ∧
    (Car.runUpdates l (Car.crash car)).velocity = car.velocity := by
  rw [runUpdates_of_crashed l (Car.crash car) rfl]
  exact ⟨rfl, rfl, rfl, rfl⟩

theorem speedFilter_eq_true (now : ℝ) (e : MapEntityEffect) :
    speedFilter now e = true ↔ speedEffectActive now e := by
  unfold speedFilter
  simp only [decide_eq_true_eq]

theorem foldl_speed_max (now : ℝ) (l : List MapEntityEffect) (init : ℝ) :
    l.foldl (speedMaxStep now) init =
      ((l.filter (speedFilter now)).map (fun e => e.value)).foldl max init := by
  induction l generalizing init with
  | nil => rfl
  | cons a t ih =>
    rw [List.foldl_cons, List.filter_cons]
    by_cases h : speedEffectActive now a
    · rw [show speedMaxStep now init a = max init a.value by
        unfold speedMaxStep; rw [if_pos h]]
      rw [if_pos ((speedFilter_eq_true now a).mpr h), List.map_cons, List.foldl_cons]
      exact ih _
    · rw [show speedMaxStep now init a = init by
        unfold speedMaxStep; rw [if_neg h]]
      rw [if_neg (fun hc => h ((speedFilter_eq_true now a).mp hc))]
      exact ih _

theorem filter_active_then_speed (now : ℝ) (l : List MapEntityEffect) :
    (filterActiveEffects now l).filter (speedFilter now) =
      l.filter (speedFilter now) := by
  unfold filterActiveEffects
  rw [List.filter_filter]
  congr 1
  funext e
  by_cases h : speedEffectActive now e
  · have hkeep : startTruthy e.startTime ∧
        (e.duration = 0 ∨ now - startVal e.startTime < e.duration) :=
      ⟨h.2.1, Or.inr h.2.2.2⟩
    simp [speedFilter, effectKeep, h, hkeep]
  · simp [speedFilter, h]

/-- C5 (amended): `getEffectiveMaxSpeed` returns the base max speed times
the maximum of 1 and the values of the maxSpeed effects that carry a
truthy (set, nonzero) start timestamp, have `duration > 0`, and satisfy
`now - startTime < duration`; an effect therefore contributes to that
maximum exactly while non-expired and never once `now - t0 ≥ duration`. -/
theorem claim_C5_amended_max_with_floor_one (ms now : ℝ)
    (effects : List MapEntityEffect) :
    (getEffectiveMaxSpeed ms effects now).2 =
      ms * ((effects.filter (speedFilter now)).map (fun e => e.value)).foldl max 1 := by
  unfold getEffectiveMaxSpeed
  dsimp only
  rw [foldl_speed_max, filter_active_then_speed]

/-- Counterexample for C5 as stated: a single non-expired maxSpeed effect
with multiplier 1/2 (applied at t0 = 100, duration 1000, queried at
now = 200) should give `10 * (1/2) = 5` by the claim, but the code folds
`Math.max` from 1 and returns 10. -/
theorem claim_C5_counterexample :
    speedEffectActive 200 ⟨"maxSpeed", 1 / 2, 1000, some 100⟩ ∧
    (getEffectiveMaxSpeed 10 [⟨"maxSpeed", 1 / 2, 1000, some 100⟩] 200).2 = 10 ∧
    (10 : ℝ) ≠ 10 * (1 / 2) := by
  have hq : speedEffectActive 200 ⟨"maxSpeed", 1 / 2, 1000, some 100⟩ := by
    refine ⟨rfl, ?_, by norm_num, by norm_num [startVal]⟩
    show (100 : ℝ) ≠ 0
    norm_num
  refine ⟨hq, ?_, by norm_num⟩
  rw [claim_C5_amended_max_with_floor_one]
  rw [List.filter_cons, if_pos ((speedFilter_eq_true _ _).mpr hq)]
  simp only [List.filter_nil, List.map_cons, List.map_nil, List.foldl_cons, List.foldl_nil]
  rw [max_eq_left (by norm_num : (1 : ℝ) / 2 ≤ 1)]
  norm_num

/-- C7: beyond the wall-transition distance, `generateRandomEntity` never
creates a plain box obstacle — only power-ups, cyclists, or wall pairs. -/
theorem claim_C7_no_box_past_transition (cfg : RoadConfig) (y : ℝ) (d : GenDraws)
    (h : |y| > cfg.wallTransitionScore) :
    ∀ e ∈ generateRandomEntity cfg y d, e.kind ≠ EntityKind.box := by
  intro e he
  simp only [generateRandomEntity] at he
  split_ifs at he with h1 h2
  · unfold generatePowerUp at he
    simp only [List.mem_singleton] at he
    subst he
    simp
  · unfold generateCyclist at he
    simp only [List.mem_singleton] at he
    subst he
    simp
  · unfold generateWallObstacle at he
    simp only [List.mem_cons, List.not_mem_nil, or_false] at he
    rcases he with he | he <;> subst he <;> simp

/-- Witness for C7 at a concrete far-out spawn position. -/
theorem claim_C7_witness :
    |(-30000 : ℝ)| > (10000 : ℝ) ∧
    (∀ e ∈ generateRandomEntity ⟨400, 30, 30, 350, -1500, 10000⟩ (-30000)
      ⟨0.5, 0.9, 0.5, 0.5, 0.5, 0.7⟩, e.kind ≠ EntityKind.box) :=
  ⟨by norm_num,
    claim_C7_no_box_past_transition ⟨400, 30, 30, 350, -1500, 10000⟩ (-30000)
      ⟨0.5, 0.9, 0.5, 0.5, 0.5, 0.7⟩ (by norm_num)⟩

/-- C8: after any `MapEntityManager.update(lastCarY, deltaTime)` call,
every entity still in the collection is active and sits strictly inside
the window `(lastCarY - 2000, lastCarY + 1000)`; inactive or out-of-window
entities were removed by the final cull filter. -/
theorem claim_C8_cull_window (m : MapEntityManager) (carY dt : ℝ)
    (draws : ℕ → GenDraws) :
    ∀ e ∈ (MapEntityManager.update carY dt draws m).entities,
      e.active = true ∧ carY - 2000 < e.y ∧ e.y < carY + 1000 := by
  intro e he
  unfold MapEntityManager.update at he
  simp only [List.mem_filter, Bool.and_eq_true, decide_eq_true_eq] at he
  exact ⟨he.2.1, he.2.2.1, he.2.2.2⟩

/-- Witness for C8: after one update at `carY = 0` the box entity is kept
and satisfies the window property. -/
theorem claim_C8_witness :
    boxEntityW ∈ (MapEntityManager.update 0 16 (fun _ => ⟨0.5, 0.9, 0.5, 0.5, 0.5, 0.7⟩)
      managerW).entities ∧
    (boxEntityW.active = true ∧ (0 : ℝ) - 2000 < boxEntityW.y ∧
      boxEntityW.y < (0 : ℝ) + 1000) := by
  have hmem : boxEntityW ∈ (MapEntityManager.update 0 16
      (fun _ => ⟨0.5, 0.9, 0.5, 0.5, 0.5, 0.7⟩) managerW).entities := by
    unfold MapEntityManager.update managerW
    have hiter : spawnIters (-3000 : ℝ) ((0 : ℝ) - 2000) (350 : ℝ) = 0 := by
      unfold spawnIters
      rw [if_neg]
      intro hc
      norm_num at hc
    dsimp only
    rw [hiter]
    show boxEntityW ∈ List.filter _ (([boxEntityW] ++ []).map (entityTick 16))
    have htick : entityTick 16 boxEntityW = boxEntityW := rfl
    rw [List.append_nil, List.map_cons, List.map_nil, htick]
    rw [List.filter_cons]
    rw [if_pos]
    · exact List.mem_cons_self _ _
    · rw [Bool.and_eq_true, decide_eq_true_eq]
      refine ⟨rfl, ?_⟩
      unfold boxEntityW
      norm_num
  exact ⟨hmem, claim_C8_cull_window managerW 0 16 _ boxEntityW hmem⟩

theorem updatePosition_zero_fields (car : Car) :
    (Car.updatePosition 0 car).worldX = car.worldX ∧
    (Car.updatePosition 0 car).worldY = car.worldY ∧
    (Car.updatePosition 0 car).rotation = car.rotation ∧
    (Car.updatePosition 0 car).velocity = car.velocity ∧
    (Car.updatePosition 0 car).lateralVelocity = car.lateralVelocity ∧
    (Car.updatePosition 0 car).activeEffects = car.activeEffects ∧
    (Car.updatePosition 0 car).scoreLog = car.scoreLog ∧
    (Car.updatePosition 0 car).height = car.height ∧
    (Car.updatePosition 0 car).crashed = car.crashed ∧
    (Car.updatePosition 0 car).stats = car.stats := by
  unfold Car.updatePosition
  have hmin : min (0 : ℝ) 32 = 0 := by norm_num
  simp only [hmin, zero_mul, mul_zero, add_zero, sub_zero, mul_one, neg_zero,
    min_self, max_self, zero_sub, one_mul, and_true, true_and, eq_self_iff_true]
  split_ifs with h1 h2
  · exact max_eq_left h1.le
  · exact min_eq_left h2.le
  · rfl

theorem applyEffect_score (now : ℝ) (car : Car) :
    Car.applyEffect now ⟨"score", 100, 0, none⟩ car =
      { car with
        activeEffects := car.activeEffects ++ [⟨"score", 100, 0, some now⟩],
        scoreLog := 100 :: car.scoreLog } := by
  unfold Car.applyEffect
  rw [if_pos rfl]

theorem applyEffect_size (now : ℝ) (car : Car) :
    Car.applyEffect now ⟨"size", 20, 0, none⟩ car =
      Car.updatePosition 0
        { car with
          activeEffects := car.activeEffects ++ [⟨"size", 20, 0, some now⟩],
          height := baseHeight + 20 } := by
  unfold Car.applyEffect
  rw [if_neg (by decide), if_pos rfl]

/-- C6: a cyclist's hit handler is idempotent: from an unhit, active
cyclist, the first `handleCollision` applies exactly one permanent score
effect (value 100, duration 0), one permanent size effect (value 20,
duration 0) and one 8-particle blood burst, leaves the car's kinematic
state untouched, keeps the cyclist active, and every later
`handleCollision` call (any draws, any time) changes neither the cyclist
nor the car. -/
theorem claim_C6_cyclist_hit_idempotent (cy : CyclistEntity) (car : Car)
    (draws : ℕ → BloodDraw) (now : ℝ)
    (hhit : cy.isHit = false) (hact : cy.isActive = true) :
    ((CyclistEntity.handleCollision draws now cy car).1.isActive = true) ∧
    ((CyclistEntity.handleCollision draws now cy car).1.isHit = true) ∧
    ((CyclistEntity.handleCollision draws now cy car).1.bloodEffects.length =
      cy.bloodEffects.length + 8) ∧
    ((CyclistEntity.handleCollision draws now cy car).2.activeEffects =
      car.activeEffects ++ [⟨"score", 100, 0, some now⟩, ⟨"size", 20, 0, some now⟩]) ∧
    ((CyclistEntity.handleCollision draws now cy car).2.scoreLog = 100 :: car.scoreLog) ∧
    ((CyclistEntity.handleCollision draws now cy car).2.height = baseHeight + 20) ∧
    ((CyclistEntity.handleCollision draws now cy car).2.worldX = car.worldX) ∧
    ((CyclistEntity.handleCollision draws now cy car).2.worldY = car.worldY) ∧
    ((CyclistEntity.handleCollision draws now cy car).2.rotation = car.rotation) ∧
    ((CyclistEntity.handleCollision draws now cy car).2.velocity = car.velocity) ∧
    (∀ (draws2 : ℕ → BloodDraw) (now2 : ℝ),
      CyclistEntity.handleCollision draws2 now2
          (CyclistEntity.handleCollision draws now cy car).1
          (CyclistEntity.handleCollision draws now cy car).2 =
        ((CyclistEntity.handleCollision draws now cy car).1,
         (CyclistEntity.handleCollision draws now cy car).2)) := by
  have hrun : CyclistEntity.handleCollision draws now cy car =
      ({ cy with
          isHit := true,
          bloodEffects := cy.bloodEffects ++ mkBloodBurst draws now cy.shapeX cy.shapeY },
        Car.applyEffect now ⟨"size", 20, 0, none⟩
          (Car.applyEffect now ⟨"score", 100, 0, none⟩ car)) := by
    unfold CyclistEntity.handleCollision CyclistEntity.onHit
    rw [if_pos hact, if_neg (by rw [hhit]; simp)]
  have hcar1 := applyEffect_score now car
  have hcar2 := applyEffect_size now (Car.applyEffect now ⟨"score", 100, 0, none⟩ car)
  have hfields := updatePosition_zero_fields
    { Car.applyEffect now ⟨"score", 100, 0, none⟩ car with
      activeEffects := (Car.applyEffect now ⟨"score", 100, 0, none⟩ car).activeEffects ++ [⟨"size", 20, 0, some now⟩],
      height := baseHeight + 20 }
  rw [hrun]
  dsimp only
  rw [hcar2]
  refine ⟨hact, rfl, ?_, ?_, ?_, ?_, ?_, ?_, ?_, ?_, ?_⟩
  · have hlen : (mkBloodBurst draws now cy.shapeX cy.shapeY).length = 8 := by
      unfold mkBloodBurst
      rw [List.length_map, List.length_range]
    rw [List.length_append, hlen]
  · rw [hfields.2.2.2.2.2.1]
    dsimp only
    rw [hcar1]
    dsimp only
    rw [List.append_assoc]
    rfl
  · rw [hfields.2.2.2.2.2.2.1]
    dsimp only
    rw [hcar1]
  · exact hfields.2.2.2.2.2.2.2.1
  · rw [hfields.1]
    dsimp only
    rw [hcar1]
  · rw [hfields.2.1]
    dsimp only
    rw [hcar1]
  · rw [hfields.2.2.1]
    dsimp only
    rw [hcar1]
  · rw [hfields.2.2.2.1]
    dsimp only
    rw [hcar1]
  · intro draws2 now2
    unfold CyclistEntity.handleCollision CyclistEntity.onHit
    dsimp only
    rw [if_pos hact, if_pos rfl]

/-- Witness for C6: the idempotence theorem applied to a concrete cyclist
and a fresh car. -/
theorem claim_C6_witness :
    cyclistW.isHit = false ∧ cyclistW.isActive = true ∧
    (CyclistEntity.handleCollision bloodDrawsW 1000 cyclistW straightCar).1.isActive = true ∧
    (CyclistEntity.handleCollision bloodDrawsW 1000 cyclistW straightCar).2.activeEffects =
      straightCar.activeEffects ++
        [⟨"score", 100, 0, some 1000⟩, ⟨"size", 20, 0, some 1000⟩] ∧
    (CyclistEntity.handleCollision bloodDrawsW 1000 cyclistW straightCar).2.scoreLog =
      100 :: straightCar.scoreLog ∧
    (CyclistEntity.handleCollision bloodDrawsW 1000 cyclistW straightCar).2.height =
      baseHeight + 20 := by
  have h := claim_C6_cyclist_hit_idempotent cyclistW straightCar bloodDrawsW 1000 rfl rfl
  exact ⟨rfl, rfl, h.1, h.2.2.2.1, h.2.2.2.2.1, h.2.2.2.2.2.1⟩

theorem update_not_crashed (c : Controls) (dt now : ℝ) (car : Car)
    (h : car.crashed = false) :
    Car.update c dt now car =
      (let car5 := Car.updatePosition dt (Car.updatePhysics dt
        (Car.updateVelocity c dt now (Car.updateSteering c
          { car with activeEffects := filterActiveEffects now car.activeEffects })));
       { car5 with shape := { car5.shape with x := car5.worldX, y := car5.worldY } }) := by
  unfold Car.update
  rw [if_neg (by rw [h]; simp)]

theorem updateSteering_neutral (c : Controls) (car : Car) (hl : c.left = false)
    (hr : c.right = false) (hs : car.steeringAngle = 0) :
    Car.updateSteering c car = { car with steeringAngle := 0 } := by
  unfold Car.updateSteering
  rw [hl, hr]
  simp only [Bool.false_eq_true, if_false]
  rw [if_pos]
  rw [hs, abs_zero]
  unfold steeringSpeed
  positivity

theorem updatePosition_velocity_keep (dt : ℝ) (car : Car)
    (hst : car.steeringAngle = 0) (hv : 0 < car.velocity) :
    (Car.updatePosition dt car).velocity = car.velocity := by
  unfold Car.updatePosition
  rw [hst, Real.tan_zero]
  simp only [zero_mul, mul_zero, ite_self, abs_zero, sub_zero]
  rw [if_pos hv, max_eq_left hv.le]

theorem updateVelocity_64 :
    Car.updateVelocity upControls 64 1000 straightCar =
      { straightCar with velocity := 1.2 * (0.99 : ℝ) ^ (4 : ℕ) } := by
  have hpow : jsPow airResistance (4 : ℝ) = (0.99 : ℝ) ^ (4 : ℕ) := by
    unfold jsPow airResistance
    rw [show (4 : ℝ) = ((4 : ℕ) : ℝ) by norm_num]
    exact Real.rpow_natCast _ _
  unfold Car.updateVelocity Car.effectiveMaxSpeedCall getEffectiveMaxSpeed filterActiveEffects
  norm_num [straightCar, upControls, List.filter, List.foldl, hpow, min_def]
  rw [abs_of_pos (by norm_num)]
  norm_num

theorem updateVelocity_32 :
    Car.updateVelocity upControls 32 1000 straightCar =
      { straightCar with velocity := 0.6 * (0.99 : ℝ) ^ (2 : ℕ) } := by
  have hpow : jsPow airResistance (2 : ℝ) = (0.99 : ℝ) ^ (2 : ℕ) := by
    unfold jsPow airResistance
    rw [show (2 : ℝ) = ((2 : ℕ) : ℝ) by norm_num]
    exact Real.rpow_natCast _ _
  unfold Car.updateVelocity Car.effectiveMaxSpeedCall getEffectiveMaxSpeed filterActiveEffects
  norm_num [straightCar, upControls, List.filter, List.foldl, hpow, min_def]
  rw [abs_of_pos (by norm_num)]
  norm_num

theorem update_velocity_64 :
    (Car.update upControls 64 1000 straightCar).velocity = 1.2 * (0.99 : ℝ) ^ (4 : ℕ) := by
  rw [update_not_crashed upControls 64 1000 straightCar rfl]
  have hsteer : Car.updateSteering upControls
      { straightCar with activeEffects := filterActiveEffects 1000 straightCar.activeEffects } =
      straightCar :=
    updateSteering_neutral upControls _ rfl rfl rfl
  dsimp only
  rw [hsteer]
  show (Car.updatePosition 64 (Car.updateVelocity upControls 64 1000 straightCar)).velocity = _
  rw [updateVelocity_64, updatePosition_velocity_keep 64 _ rfl (by norm_num)]

theorem update_velocity_32 :
    (Car.update upControls 32 1000 straightCar).velocity = 0.6 * (0.99 : ℝ) ^ (2 : ℕ) := by
  rw [update_not_crashed upControls 32 1000 straightCar rfl]
  have hsteer : Car.updateSteering upControls
      { straightCar with activeEffects := filterActiveEffects 1000 straightCar.activeEffects } =
      straightCar :=
    updateSteering_neutral upControls _ rfl rfl rfl
  dsimp only
  rw [hsteer]
  show (Car.updatePosition 32 (Car.updateVelocity upControls 32 1000 straightCar)).velocity = _
  rw [updateVelocity_32, updatePosition_velocity_keep 32 _ rfl (by norm_num)]

/-- Counterexample for C9 as stated: from a fresh car holding "up", one
`update` with `deltaTime = 64 > 32` yields a different velocity than one
`update` with `deltaTime = 32` — the velocity update uses the raw delta. -/
theorem claim_C9_counterexample :
    (32 : ℝ) < 64 ∧
    (Car.update upControls 64 1000 straightCar).velocity ≠
      (Car.update upControls 32 1000 straightCar).velocity := by
  refine ⟨by norm_num, ?_⟩
  rw [update_velocity_64, update_velocity_32]
  norm_num

/-- C9 (amended): the 32 ms clamp applies only inside the
position/orientation integration: for every car state and every
`deltaTime > 32`, `updatePosition(deltaTime)` equals `updatePosition(32)`;
the velocity update, by contrast, consumes the raw `deltaTime`, so a full
`update` is not invariant under the clamp. -/
theorem claim_C9_amended_clamp_in_updatePosition (car : Car) (dt : ℝ) (h : 32 < dt) :
    Car.updatePosition dt car = Car.updatePosition 32 car := by
  unfold Car.updatePosition
  rw [min_eq_right h.le, min_self]

/-- Witness for C9's amended clamp property at `deltaTime = 64`. -/
theorem claim_C9_amended_witness :
    (32 : ℝ) < 64 ∧
    Car.updatePosition 64 straightCar = Car.updatePosition 32 straightCar :=
  ⟨by norm_num, claim_C9_amended_clamp_in_updatePosition straightCar 64 (by norm_num)⟩
